import Mathlib

/-!
Verification development for the `atomic-swaps` SDK (zkSync-based atomic swap
between a client and a provider through a jointly controlled CREATE2 escrow
account).

The definitions below are a shallow embedding of the TypeScript sources:
`src/utils.ts` (transaction builder `getTransactions`, `transpose`, `formatTx`),
`src/client.ts` (`SwapClient`), `src/provider.ts` (`SwapProvider`) and the
shared `SwapParty` base class.  BigNumber amounts and fees are embedded as
`Nat` (the SDK only ever handles non-negative amounts), addresses, token
symbols and hex blobs as `String`, byte arrays as `List Nat`.  Asynchronous
ledger calls are embedded as explicit snapshot/result parameters, and a thrown
JS exception is an `Except.error` carrying both the message and the object
state at the moment of the throw (JS exceptions leave all mutations made so
far in place, which this embedding preserves).
-/

namespace AtomicSwaps

/-- Byte-array values (signature shares, commitments, serialized txs). -/
abbrev Bytes := List Nat

/-- zkSync `MAX_TIMESTAMP` constant used as the upper end of unbounded
validity windows. -/
def MAX_TIMESTAMP : Nat := 4294967295

/-- One side of the trade: a token and an amount (`types.ts`, `Deal`). -/
structure Deal where
  token : String
  amount : Nat
  deriving Repr, DecidableEq

/-- CREATE2 data carried inside `SwapData` (`types.ts`). -/
structure Create2Data where
  salt : String
  hash : String
  creator : String
  deriving Repr, DecidableEq

/-- Whether the provider's proceeds leg is an L2 Transfer or an L1 Withdraw
(`types.ts`, `withdrawType`). -/
inductive WithdrawType where
  | L1
  | L2
  deriving Repr, DecidableEq

/-- The immutable swap terms (`types.ts`, `SwapData`). -/
structure SwapData where
  sell : Deal
  buy : Deal
  timeout : Nat
  withdrawType : WithdrawType
  create2 : Create2Data
  deriving Repr, DecidableEq

/-- Committed account state returned by `syncProvider.getState` restricted to
the fields the SDK reads: optional account id, address, committed nonce and
committed balances (the code reads `balances[token] || 0`, so balances are
embedded as a total function defaulting to `0`). -/
structure AccountState where
  id : Option Nat
  address : String
  nonce : Nat
  balances : String → Nat

/-- Ledger snapshot consumed by one `getTransactions` call: the four fee
quotes it requests, the escrow account state, and the token-id resolution
table of `syncProvider.tokenSet`. -/
structure Snapshot where
  feeTransferSold : Nat
  feeTransferBought : Nat
  feeChangePubKey : Nat
  feeWithdraw : Nat
  account : AccountState
  resolveTokenId : String → Nat

/-- Transaction type tag. -/
inductive TxType where
  | ChangePubKey
  | Transfer
  | Withdraw
  deriving Repr, DecidableEq

/-- CREATE2 `ethAuthData` attached to the ChangePubKey transaction. -/
structure EthAuthData where
  creatorAddress : String
  saltArg : String
  codeHash : String
  deriving Repr, DecidableEq

/-- The signature object attached by `formatTx`. -/
structure TxSignature where
  pubKey : String
  signature : Bytes
  deriving Repr, DecidableEq

/-- A transaction object of the batch.  JS objects carry different key sets
per transaction type; keys absent for a given type are embedded as `none`.
`account` is the ChangePubKey account field, `fromAcc` the Transfer/Withdraw
`from` field, `to` the Transfer recipient, `ethAddress` the Withdraw L1
recipient.  `token`, `feeToken` and `signature` are only added later by
`formatTx`. -/
structure Tx where
  type : TxType
  accountId : Nat
  account : Option String := none
  fromAcc : Option String := none
  toAddr : Option String := none
  ethAddress : Option String := none
  newPkHash : Option String := none
  amount : Option Nat := none
  tokenId : Option Nat := none
  feeTokenId : Nat
  fee : Nat
  nonce : Nat
  validFrom : Nat
  validUntil : Nat
  ethAuthData : Option EthAuthData := none
  token : Option Nat := none
  feeToken : Option Nat := none
  signature : Option TxSignature := none
  deriving Repr, DecidableEq

instance : Inhabited Tx :=
  ⟨{ type := TxType.Transfer, accountId := 0, feeTokenId := 0, fee := 0,
     nonce := 0, validFrom := 0, validUntil := 0 }⟩

/-- A timestamp `t` lies inside the validity window of `tx`. -/
def inWindow (tx : Tx) (t : Nat) : Prop :=
  tx.validFrom ≤ t ∧ t ≤ tx.validUntil

instance (tx : Tx) (t : Nat) : Decidable (inWindow tx t) := by
  unfold inWindow; infer_instance

/-- `getTransactions` from `src/utils.ts`: builds the fixed 5-transaction
batch from the swap terms, the party addresses, the escrow (swap) address,
the aggregated public key hash and the ledger snapshot.  Throws when the
escrow account has no id yet. -/
def getTransactions (swapData : SwapData) (clientAddress providerAddress : String)
    (_swapAddress : String) (pubKeyHash : String) (snap : Snapshot) :
    Except String (List Tx) :=
  match snap.account.id with
  | none => Except.error "Swap Account ID not set - cant sign transactions"
  | some accId =>
    let buyTokenId := snap.resolveTokenId swapData.buy.token
    let sellTokenId := snap.resolveTokenId swapData.sell.token
    let nonce := snap.account.nonce
    Except.ok [
      { type := TxType.ChangePubKey,
        accountId := accId,
        account := some snap.account.address,
        newPkHash := some ("sync:" ++ pubKeyHash),
        nonce := nonce,
        feeTokenId := sellTokenId,
        fee := snap.feeChangePubKey,
        validFrom := 0,
        validUntil := MAX_TIMESTAMP,
        ethAuthData := some { creatorAddress := swapData.create2.creator,
                              saltArg := swapData.create2.salt,
                              codeHash := swapData.create2.hash } },
      { type := TxType.Transfer,
        tokenId := some buyTokenId,
        accountId := accId,
        fromAcc := some snap.account.address,
        toAddr := some clientAddress,
        amount := some swapData.buy.amount,
        fee := snap.feeTransferBought,
        feeTokenId := buyTokenId,
        nonce := nonce + 1,
        validFrom := 0,
        validUntil := swapData.timeout },
      (match swapData.withdrawType with
       | WithdrawType.L1 =>
        { type := TxType.Withdraw,
          tokenId := some sellTokenId,
          accountId := accId,
          fromAcc := some snap.account.address,
          ethAddress := some providerAddress,
          amount := some swapData.sell.amount,
          fee := snap.feeWithdraw,
          feeTokenId := sellTokenId,
          nonce := nonce + 2,
          validFrom := 0,
          validUntil := MAX_TIMESTAMP }
       | WithdrawType.L2 =>
        { type := TxType.Transfer,
          tokenId := some sellTokenId,
          accountId := accId,
          fromAcc := some snap.account.address,
          toAddr := some providerAddress,
          amount := some swapData.sell.amount,
          fee := snap.feeTransferSold,
          feeTokenId := sellTokenId,
          nonce := nonce + 2,
          validFrom := 0,
          validUntil := MAX_TIMESTAMP }),
      { type := TxType.Transfer,
        tokenId := some sellTokenId,
        accountId := accId,
        fromAcc := some snap.account.address,
        toAddr := some clientAddress,
        amount := some swapData.sell.amount,
        fee := snap.feeTransferSold,
        feeTokenId := sellTokenId,
        nonce := nonce + 1,
        validFrom := swapData.timeout + 1,
        validUntil := MAX_TIMESTAMP },
      { type := TxType.Transfer,
        tokenId := some buyTokenId,
        accountId := accId,
        fromAcc := some snap.account.address,
        toAddr := some providerAddress,
        amount := some swapData.buy.amount,
        fee := snap.feeTransferBought,
        feeTokenId := buyTokenId,
        nonce := nonce + 2,
        validFrom := swapData.timeout + 1,
        validUntil := MAX_TIMESTAMP } ]

/-- `transpose` from `src/utils.ts`:
`matrix[0].map((_, index) => matrix.map((row) => row[index]))`.
On an empty outer list, `matrix[0]` is `undefined` and `.map` throws a
TypeError — embedded as `none`.  The callback only uses the index, so
`matrix[0].map` is embedded as a map over `List.range` of the first row's
length.  An out-of-range `row[index]` is JS `undefined`; it is embedded as
`default` (this is never reached on rectangular input). -/
def transpose {α : Type} [Inhabited α] (matrix : List (List α)) :
    Option (List (List α)) :=
  match matrix with
  | [] => none
  | r0 :: _ =>
    some ((List.range r0.length).map
      (fun index => matrix.map (fun row => row.getD index default)))

/-- `formatTx` from `src/utils.ts`: attaches the combined signature and the
aggregated public key to a transaction, copies `ethAddress` into `to` when
present, and mirrors `feeTokenId`/`tokenId` into `feeToken`/`token` when
present (in this embedding `feeTokenId` is always present, `tokenId` when it
was set by the builder).  The string re-encoding of `fee`/`amount` is wire
formatting and keeps the numeric value. -/
def formatTx (tx : Tx) (signature : Bytes) (pubkey : String) : Tx :=
  { tx with
    signature := some { pubKey := pubkey, signature := signature },
    toAddr := match tx.ethAddress with
              | some a => some a
              | none => tx.toAddr,
    feeToken := some tx.feeTokenId,
    token := tx.tokenId }

/-- The escrow descriptor `create2Info` computed by both parties:
`zksync.utils.getCREATE2AddressAndSalt` returns a salt and an address. -/
structure Create2Info where
  salt : String
  address : String
  deriving Repr, DecidableEq

/-- The escrow-address derivation call exactly as `SwapProvider.prepareSwap`
makes it: the external pure derivation primitive
(`zksync.utils.getCREATE2AddressAndSalt`, an out-of-scope collaborator,
abstracted as the function argument `getCREATE2AddressAndSalt`) applied to
the aggregated public key hash and the CREATE2 data of the swap terms. -/
def providerEscrowDerivation
    (getCREATE2AddressAndSalt : String → EthAuthData → Create2Info)
    (pubKeyHash : String) (create2 : Create2Data) : Create2Info :=
  getCREATE2AddressAndSalt pubKeyHash
    { creatorAddress := create2.creator, saltArg := create2.salt,
      codeHash := create2.hash }

/-- The escrow-address derivation call exactly as `SwapClient.prepareSwap`
makes it (same external primitive, same argument assembly). -/
def clientEscrowDerivation
    (getCREATE2AddressAndSalt : String → EthAuthData → Create2Info)
    (pubKeyHash : String) (create2 : Create2Data) : Create2Info :=
  getCREATE2AddressAndSalt pubKeyHash
    { creatorAddress := create2.creator, saltArg := create2.salt,
      codeHash := create2.hash }

/-- Provider-side swap states (`types.ts`, `SwapState`). -/
inductive SwapState where
  | empty
  | prepared
  | signed
  | checked
  | deposited
  | finalized
  deriving Repr, DecidableEq

/-- Client-side swap states (the `State` enum local to `client.ts`). -/
inductive ClientState where
  | empty
  | prepared
  | signed
  | deposited
  deriving Repr, DecidableEq

/-- The cryptographic collaborators consumed by the parties (the
schnorr-musig wasm bindings and the zkSync serializer), abstracted as pure
functions: the batch-level protocol logic treats them as an opaque
capability.  `serialize` is `zksync.utils.serializeTx` / `getSignBytes`;
`sign p bytes i` is `signer.sign(privateKey, bytes, i)`;
`combine s1 s2 i` is `signer.receiveSignatureShares([s1, s2], i)`;
`verify bytes sig` is `signer.verify(bytes, sig)`;
`aggPubkey` is `signer.computePubkey()` (hexlified), `pkHash` its
`pubKeyHash`; `computePrecommitments`, `receivePrecommitments` and the
derivation primitive mirror the remaining calls. -/
structure CryptoOps where
  serialize : Tx → Bytes
  sign : String → Bytes → Nat → Bytes
  combine : Bytes → Bytes → Nat → Bytes
  verify : Bytes → Bytes → Bool
  aggPubkey : String
  pkHash : String
  computePrecommitments : List Bytes
  receivePrecommitments : List (List Bytes) → List Bytes
  sha256 : Bytes → String
  derive : String → EthAuthData → Create2Info

/-- `SwapClient` object state (`client.ts`): long-lived identity (keys,
wallet address) plus the per-attempt fields. -/
structure ClientParty where
  privateKey : String
  publicKey : String
  address : String
  state : ClientState
  swapData : Option SwapData := none
  commitments : Option (List Bytes) := none
  pubKeyHash : Option String := none
  create2Info : Option Create2Info := none
  transactions : List Tx := []
  deriving Repr, DecidableEq

/-- `SwapProvider` object state (`provider.ts` on top of the `SwapParty`
base): long-lived identity plus per-attempt fields, including the
provider-only `schnorrData` precommitments/commitments, the client address
and the provider's own signature shares. -/
structure ProviderParty where
  privateKey : String
  publicKey : String
  address : String
  state : SwapState
  swapData : Option SwapData := none
  precommitments : List Bytes := []
  commitments : List Bytes := []
  clientAddress : String := ""
  pubKeyHash : Option String := none
  create2Info : Option Create2Info := none
  transactions : List Tx := []
  shares : List Bytes := []
  deriving Repr, DecidableEq

/-- `SwapParty.reset` / `SwapClient.reset`: `this.state = empty` and nothing
else. -/
def ClientParty.reset (p : ClientParty) : ClientParty :=
  { p with state := ClientState.empty }

/-- `SwapParty.reset` as inherited by the provider. -/
def ProviderParty.reset (p : ProviderParty) : ProviderParty :=
  { p with state := SwapState.empty }

/-- `SwapClient.swapAddress`: throws while no swap is active. -/
def ClientParty.swapAddress (p : ClientParty) : Except String String :=
  if p.state = ClientState.empty then Except.error "No active swaps present"
  else Except.ok (p.create2Info.getD { salt := "", address := "" }).address

/-- `SwapClient.swapSalt`: throws while no swap is active. -/
def ClientParty.swapSalt (p : ClientParty) : Except String String :=
  if p.state = ClientState.empty then Except.error "No active swaps present"
  else Except.ok (p.create2Info.getD { salt := "", address := "" }).salt

/-- The `Swap` handle returned by `SwapClient.signSwap` (`client.ts`): the
ChangePubKey transaction, the finalize (slot 1) and cancel (slot 3)
transactions, and the precomputed hash of the finalize transaction. -/
structure SwapHandle where
  changePubKeyTx : Tx
  finalTx : Tx
  cancelTx : Tx
  finalHash : String
  deriving Repr, DecidableEq

/-- Ledger interactions performed by `SwapClient.prepareSwap`: the first
`getState` query on the escrow address, the result of the 0-transfer used to
create the account when it has no id, and the snapshot consumed by the inner
`getTransactions` call (which re-queries state and fees on its own). -/
structure PrepareLedger where
  preAccount : AccountState
  transferResult : Except String Unit
  snap : Snapshot

/-- `SwapClient.prepareSwap` (`client.ts`): guard on `empty`, then set all
per-attempt fields and the `prepared` state, then perform the fallible ledger
work (account-creating 0-transfer, `getTransactions`).  An error thrown by
the ledger work surfaces after the state and fields were already mutated,
which the error value records. -/
def clientPrepareSwap (ops : CryptoOps) (p : ClientParty) (data : SwapData)
    (_providerPubkey : String) (providerAddress : String)
    (providerPrecommitments : List Bytes) (led : PrepareLedger) :
    Except (String × ClientParty) (ClientParty × List Bytes × List Bytes) :=
  if p.state ≠ ClientState.empty then
    Except.error ("SwapClient is in the middle of a swap - cant start a new one", p)
  else
    let precommitments := ops.computePrecommitments
    let commitments := ops.receivePrecommitments
      ((transpose [providerPrecommitments, precommitments]).getD [])
    let pkh := ops.pkHash
    let c2 := clientEscrowDerivation ops.derive pkh data.create2
    let p1 : ClientParty :=
      { p with swapData := some data, commitments := some commitments,
               pubKeyHash := some pkh, create2Info := some c2,
               state := ClientState.prepared }
    let afterTransfer : Except (String × ClientParty) Unit :=
      match led.preAccount.id with
      | some _ => Except.ok ()
      | none =>
        match led.transferResult with
        | Except.ok () => Except.ok ()
        | Except.error e => Except.error (e, p1)
    match afterTransfer with
    | Except.error e => Except.error e
    | Except.ok () =>
      match getTransactions data p.address providerAddress c2.address pkh led.snap with
      | Except.error e => Except.error (e, p1)
      | Except.ok txs =>
        Except.ok ({ p1 with transactions := txs }, precommitments, commitments)

/-- The per-slot loop of `SwapClient.signSwap`: for slot `i`, serialize the
transaction, produce the client's own share, combine it with the provider's
share `i` (provider first, as in `[data.shares[i], share]`), verify, and on
success mutate the transaction via `formatTx`.  On a verification failure the
loop throws, leaving the already-processed prefix mutated — the error value
is the transaction list at the moment of the throw. -/
def clientSignLoop (ops : CryptoOps) (privateKey : String)
    (theirShares : List Bytes) :
    List Tx → Nat → Except (List Tx) (List Tx × List Bytes)
  | [], _ => Except.ok ([], [])
  | tx :: rest, i =>
    let bytes := ops.serialize tx
    let share := ops.sign privateKey bytes i
    let signature := ops.combine (theirShares.getD i []) share i
    if ops.verify bytes signature then
      match clientSignLoop ops privateKey theirShares rest (i + 1) with
      | Except.ok (l, ss) =>
        Except.ok (formatTx tx signature ops.aggPubkey :: l, share :: ss)
      | Except.error l => Except.error (formatTx tx signature ops.aggPubkey :: l)
    else Except.error (tx :: rest)

/-- `SwapClient.signSwap` (`client.ts`): guard on `prepared`, run the
sign/combine/verify loop over all transactions, then build the `Swap` handle
from (mutated) slots 0, 1 and 3 and the hash of slot 1, and move to
`signed`. -/
def clientSignSwap (ops : CryptoOps) (p : ClientParty)
    (_peerCommitments : List Bytes) (peerShares : List Bytes) :
    Except (String × ClientParty) (ClientParty × SwapHandle × List Bytes) :=
  if p.state ≠ ClientState.prepared then
    Except.error ("SwapClient is not prepared for the swap", p)
  else
    match clientSignLoop ops p.privateKey peerShares p.transactions 0 with
    | Except.error l =>
      Except.error ("Provided signature shares were invalid", { p with transactions := l })
    | Except.ok (l, shares) =>
      let finalHash := "sync-tx:" ++ ops.sha256 (ops.serialize (l.getD 1 default))
      let swap : SwapHandle :=
        { changePubKeyTx := l.getD 0 default, finalTx := l.getD 1 default,
          cancelTx := l.getD 3 default, finalHash := finalHash }
      Except.ok ({ p with transactions := l, state := ClientState.signed }, swap, shares)

/-- `SwapClient.depositFunds` (`client.ts`): guard on `signed`, compute the
deposit as sell amount + slot-0 fee + slot-2 fee in the sell token, hand it
to the ledger (`syncTransfer` for L2, `depositToSyncFromEthereum` for L1 —
abstracted as the `ledger` argument), and move to `deposited` only once the
ledger call succeeded. -/
def clientDepositFunds (p : ClientParty) (depositType : WithdrawType)
    (ledger : WithdrawType → Nat → String → Except String String) :
    Except (String × ClientParty) (ClientParty × String) :=
  if p.state ≠ ClientState.signed then
    Except.error ("SwapClient has not yet signed the transactions - cant deposit funds", p)
  else
    match p.swapData with
    | none => Except.error ("TypeError: undefined swap data", p)
    | some d =>
      let amount := d.sell.amount + (p.transactions.getD 0 default).fee
        + (p.transactions.getD 2 default).fee
      match ledger depositType amount d.sell.token with
      | Except.error e => Except.error (e, p)
      | Except.ok hash =>
        Except.ok ({ p with state := ClientState.deposited }, hash)

/-- `SwapProvider.prepareSwap` (`provider.ts`): guard on `empty`, create the
signer session, compute precommitments, record the terms and the client
address, derive the escrow descriptor and move to `prepared`.  No ledger
calls. -/
def providerPrepareSwap (ops : CryptoOps) (p : ProviderParty) (data : SwapData)
    (_clientPubkey : String) (clientAddress : String) :
    Except (String × ProviderParty) (ProviderParty × String × String × List Bytes) :=
  if p.state ≠ SwapState.empty then
    Except.error ("In the middle of a swap - cant start a new one", p)
  else
    let precommitments := ops.computePrecommitments
    let pkh := ops.pkHash
    let c2 := providerEscrowDerivation ops.derive pkh data.create2
    let p1 : ProviderParty :=
      { p with precommitments := precommitments, swapData := some data,
               clientAddress := clientAddress, pubKeyHash := some pkh,
               create2Info := some c2, state := SwapState.prepared }
    Except.ok (p1, p.publicKey, p.address, precommitments)

/-- Helper for `SwapProvider.signSwap`: the provider's signature share for
every slot, `signer.sign(privateKey, serializeTx(tx), i)`. -/
def providerSignAll (ops : CryptoOps) (privateKey : String) :
    List Tx → Nat → List Bytes
  | [], _ => []
  | tx :: rest, i =>
    ops.sign privateKey (ops.serialize tx) i :: providerSignAll ops privateKey rest (i + 1)

/-- `SwapProvider.signSwap` (`provider.ts`): guard on `prepared`, absorb the
client's precommitments into round-2 commitments (mutating `schnorrData`),
build the batch with `getTransactions`, sign every slot and move to
`signed`.  A `getTransactions` failure surfaces after the commitments were
already mutated. -/
def providerSignSwap (ops : CryptoOps) (p : ProviderParty)
    (peerPrecommitments : List Bytes) (_peerCommitments : List Bytes)
    (snap : Snapshot) :
    Except (String × ProviderParty) (ProviderParty × List Bytes × List Bytes) :=
  if p.state ≠ SwapState.prepared then
    Except.error ("Not prepared for the swap", p)
  else
    let commitments := ops.receivePrecommitments
      ((transpose [p.precommitments, peerPrecommitments]).getD [])
    let p1 : ProviderParty := { p with commitments := commitments }
    match p.swapData, p.pubKeyHash, p.create2Info with
    | some d, some pkh, some c2 =>
      (match getTransactions d p.clientAddress p.address c2.address pkh snap with
       | Except.error e => Except.error (e, p1)
       | Except.ok txs =>
         let shares := providerSignAll ops p.privateKey txs 0
         Except.ok ({ p1 with transactions := txs, shares := shares,
                              state := SwapState.signed }, commitments, shares))
    | _, _, _ => Except.error ("TypeError: undefined swap fields", p1)

/-- The per-slot loop of `SwapProvider.checkSwap`: combine the provider's
stored share `i` with the client's share `i` (provider first, as in
`[this.shares[i], signatureShares[i]]`), verify against the serialized
transaction, and mutate the transaction via `formatTx` on success.  On a
verification failure the loop throws, leaving the already-processed prefix
mutated — the error value is the transaction list at the moment of the
throw. -/
def providerCombineLoop (ops : CryptoOps) (mine theirs : List Bytes) :
    List Tx → Nat → Except (List Tx) (List Tx)
  | [], _ => Except.ok []
  | tx :: rest, i =>
    let signature := ops.combine (mine.getD i []) (theirs.getD i []) i
    let bytes := ops.serialize tx
    if ops.verify bytes signature then
      match providerCombineLoop ops mine theirs rest (i + 1) with
      | Except.ok l => Except.ok (formatTx tx signature ops.aggPubkey :: l)
      | Except.error l => Except.error (formatTx tx signature ops.aggPubkey :: l)
    else Except.error (tx :: rest)

/-- `SwapProvider.checkSwap` (`provider.ts`): guard on `signed`, combine and
verify every slot (mutating the transactions as it goes), then read the
escrow balance in the sold token (the `swapAccount` argument is the
`getState` result) and fail unless it covers the sell amount; otherwise move
to `checked`. -/
def providerCheckSwap (ops : CryptoOps) (p : ProviderParty)
    (signatureShares : List Bytes) (swapAccount : AccountState) :
    Except (String × ProviderParty) ProviderParty :=
  if p.state ≠ SwapState.signed then
    Except.error ("Not yet signed the swap transactions", p)
  else
    match providerCombineLoop ops p.shares signatureShares p.transactions 0 with
    | Except.error l =>
      Except.error ("Provided signature shares are invalid", { p with transactions := l })
    | Except.ok l =>
      match p.swapData with
      | none => Except.error ("TypeError: undefined swap data", { p with transactions := l })
      | some d =>
        let balance := swapAccount.balances d.sell.token
        if balance < d.sell.amount then
          Except.error ("Client did not deposit enough funds", { p with transactions := l })
        else
          Except.ok { p with transactions := l, state := SwapState.checked }

/-- `SwapProvider.finalizeSwap` (`provider.ts`): guard on `checked`, submit
the first three transactions of the batch through `sendBatch` (abstracted as
the `ledger` argument) and move to `finalized` once the submission
succeeded. -/
def providerFinalizeSwap (p : ProviderParty)
    (ledger : List Tx → Except String (List String)) :
    Except (String × ProviderParty) (ProviderParty × List String) :=
  if p.state ≠ SwapState.checked then
    Except.error ("Not yet checked the signatures - not safe to deposit funds", p)
  else
    match ledger (p.transactions.take 3) with
    | Except.error e => Except.error (e, p)
    | Except.ok hashes =>
      Except.ok ({ p with state := SwapState.finalized }, hashes)

/-! ## Concrete inputs used by witnesses and counterexamples -/

/-- Concrete ledger snapshot: escrow account with id 7, nonce 9. -/
def wSnap : Snapshot :=
  { feeTransferSold := 3, feeTransferBought := 4, feeChangePubKey := 5,
    feeWithdraw := 6,
    account := { id := some 7, address := "esc", nonce := 9,
                 balances := fun _ => 0 },
    resolveTokenId := fun t => if t = "ETH" then 0 else 1 }

/-- Concrete swap terms: sell 100 ETH-units for 200 DAI-units, timeout 50,
L2 withdraw. -/
def wData : SwapData :=
  { sell := { token := "ETH", amount := 100 },
    buy := { token := "DAI", amount := 200 },
    timeout := 50, withdrawType := WithdrawType.L2,
    create2 := { salt := "s", hash := "h", creator := "cr" } }

/-- Concrete crypto collaborators for witnesses: verification always
succeeds, the derivation is a constant descriptor. -/
def wOps : CryptoOps :=
  { serialize := fun tx => [tx.nonce],
    sign := fun _ b i => i :: b,
    combine := fun s1 s2 i => s1 ++ s2 ++ [i],
    verify := fun _ _ => true,
    aggPubkey := "agg", pkHash := "pkh",
    computePrecommitments := [[1], [2], [3], [4], [5]],
    receivePrecommitments := fun m => m.map (fun r => r.headD []),
    sha256 := fun _ => "hash",
    derive := fun _ _ => { salt := "s2", address := "esc2" } }

/-- Crypto collaborators whose verification always fails (tampered-share
scenario). -/
def wOpsBad : CryptoOps :=
  { wOps with verify := fun _ _ => false }

/-- A provider that has completed `prepareSwap` for `wData` against a client
at address `cli`. -/
def wProviderPrepared : ProviderParty :=
  { privateKey := "sk", publicKey := "pk", address := "prov",
    state := SwapState.prepared, swapData := some wData,
    precommitments := [], commitments := [], clientAddress := "cli",
    pubKeyHash := some "pkh",
    create2Info := some { salt := "s2", address := "esc2" } }

/-- A fresh client at address `cli`. -/
def wClientEmpty : ClientParty :=
  { privateKey := "csk", publicKey := "cpk", address := "cli",
    state := ClientState.empty }

/-- Concrete ledger interactions for the client `prepareSwap` witness. -/
def wLed : PrepareLedger :=
  { preAccount := wSnap.account, transferResult := Except.ok (), snap := wSnap }

/-- Ledger snapshot in which the escrow account still has no id (e.g. the
account-creating transfer has not been included yet). -/
def wSnapNoId : Snapshot :=
  { wSnap with account := { wSnap.account with id := none } }

/-- Ledger interactions for a `prepareSwap` attempt where the escrow account
never obtains an id: the 0-transfer itself succeeds but the follow-up
`getTransactions` query still sees no id and throws. -/
def wLedNoId : PrepareLedger :=
  { preAccount := wSnapNoId.account, transferResult := Except.ok (),
    snap := wSnapNoId }

/-- The concrete client after a successful `prepareSwap` run. -/
def wClientPrepared : ClientParty :=
  match clientPrepareSwap wOps wClientEmpty wData "cpk" "prov" [] wLed with
  | Except.ok (p, _, _) => p
  | Except.error _ => wClientEmpty

/-- The concrete client after a successful `signSwap` run. -/
def wClientSigned : ClientParty :=
  match clientSignSwap wOps wClientPrepared [] [[1], [2], [3], [4], [5]] with
  | Except.ok (p, _, _) => p
  | Except.error _ => wClientPrepared

/-- A provider that has completed `signSwap`: state `signed`, the concrete
batch for `wData`/`wSnap` as transactions (fees 5 and 3 at slots 0 and 2),
and its own shares. -/
def wProviderSigned : ProviderParty :=
  match providerSignSwap wOps wProviderPrepared [] [] wSnap with
  | Except.ok (p, _, _) => p
  | Except.error _ => wProviderPrepared

/-- Escrow account holding exactly the sell amount (100) of the sold token —
less than sell amount plus the slot-0 and slot-2 fees (100 + 5 + 3). -/
def wEscrowAccount : AccountState :=
  { id := some 7, address := "esc2", nonce := 9,
    balances := fun t => if t = "ETH" then 100 else 0 }

/-! ## C1: shape of the 5-transaction batch -/

/-- C1. When the escrow account has an id, `getTransactions` returns exactly
5 transactions: slot 0 a ChangePubKey with nonce `n`, window
`[0, MAX_TIMESTAMP]` and the CREATE2 auth data from the swap terms; slot 1 a
Transfer of the bought token/amount to the client with nonce `n+1` and
window `[0, timeout]`; slot 2 a Transfer (or, for `withdrawType = L1`, a
Withdraw) of the sold token/amount to the provider with nonce `n+2` and
window `[0, MAX_TIMESTAMP]`; slot 3 a Transfer of the sold token/amount to
the client with nonce `n+1` and window `[timeout+1, MAX_TIMESTAMP]`; slot 4
a Transfer of the bought token/amount to the provider with nonce `n+2` and
window `[timeout+1, MAX_TIMESTAMP]`, where `n` is the account's observed
nonce. -/
theorem getTransactions_batch_shape (d : SwapData) (ca pa sa pkh : String)
    (snap : Snapshot) (accId : Nat) (h : snap.account.id = some accId) :
    (∃ txs, getTransactions d ca pa sa pkh snap = Except.ok txs) ∧
    ∀ txs, getTransactions d ca pa sa pkh snap = Except.ok txs →
      txs.length = 5 ∧
      ((txs.getD 0 default).type = TxType.ChangePubKey ∧
       (txs.getD 0 default).nonce = snap.account.nonce ∧
       (txs.getD 0 default).validFrom = 0 ∧
       (txs.getD 0 default).validUntil = MAX_TIMESTAMP ∧
       (txs.getD 0 default).ethAuthData =
         some { creatorAddress := d.create2.creator,
                saltArg := d.create2.salt, codeHash := d.create2.hash }) ∧
      ((txs.getD 1 default).type = TxType.Transfer ∧
       (txs.getD 1 default).tokenId = some (snap.resolveTokenId d.buy.token) ∧
       (txs.getD 1 default).toAddr = some ca ∧
       (txs.getD 1 default).amount = some d.buy.amount ∧
       (txs.getD 1 default).nonce = snap.account.nonce + 1 ∧
       (txs.getD 1 default).validFrom = 0 ∧
       (txs.getD 1 default).validUntil = d.timeout) ∧
      ((txs.getD 2 default).tokenId = some (snap.resolveTokenId d.sell.token) ∧
       (txs.getD 2 default).amount = some d.sell.amount ∧
       (txs.getD 2 default).nonce = snap.account.nonce + 2 ∧
       (txs.getD 2 default).validFrom = 0 ∧
       (txs.getD 2 default).validUntil = MAX_TIMESTAMP ∧
       (d.withdrawType = WithdrawType.L1 →
         (txs.getD 2 default).type = TxType.Withdraw ∧
         (txs.getD 2 default).ethAddress = some pa) ∧
       (d.withdrawType = WithdrawType.L2 →
         (txs.getD 2 default).type = TxType.Transfer ∧
         (txs.getD 2 default).toAddr = some pa)) ∧
      ((txs.getD 3 default).type = TxType.Transfer ∧
       (txs.getD 3 default).tokenId = some (snap.resolveTokenId d.sell.token) ∧
       (txs.getD 3 default).toAddr = some ca ∧
       (txs.getD 3 default).amount = some d.sell.amount ∧
       (txs.getD 3 default).nonce = snap.account.nonce + 1 ∧
       (txs.getD 3 default).validFrom = d.timeout + 1 ∧
       (txs.getD 3 default).validUntil = MAX_TIMESTAMP) ∧
      ((txs.getD 4 default).type = TxType.Transfer ∧
       (txs.getD 4 default).tokenId = some (snap.resolveTokenId d.buy.token) ∧
       (txs.getD 4 default).toAddr = some pa ∧
       (txs.getD 4 default).amount = some d.buy.amount ∧
       (txs.getD 4 default).nonce = snap.account.nonce + 2 ∧
       (txs.getD 4 default).validFrom = d.timeout + 1 ∧
       (txs.getD 4 default).validUntil = MAX_TIMESTAMP) := by
  constructor
  · unfold getTransactions
    rw [h]
    exact ⟨_, rfl⟩
  · intro txs htxs
    unfold getTransactions at htxs
    rw [h] at htxs
    simp only [Except.ok.injEq] at htxs
    subst htxs
    cases hw : d.withdrawType <;>
      simp [hw, List.getD]

/-- Witness for C1 at the concrete snapshot/terms (hypothesis
`wSnap.account.id = some 7` discharged by `rfl`). -/
theorem getTransactions_batch_shape_witness :
    wSnap.account.id = some 7 ∧
    ∃ txs, getTransactions wData "ca" "pa" "sa" "pkh" wSnap = Except.ok txs :=
  ⟨rfl, (getTransactions_batch_shape wData "ca" "pa" "sa" "pkh" wSnap 7 rfl).1⟩

/-! ## C2: nonce sharing and validity windows -/

/-- C2 counterexample.  The claim asserts that slots 2 and 4 have disjoint,
non-overlapping validity windows meeting at the timeout.  At the concrete
inputs (timeout 50) the code gives slot 2 the window `[0, MAX_TIMESTAMP]`
and slot 4 the window `[51, MAX_TIMESTAMP]`: both contain the timestamp 51,
so the two windows overlap and do not meet at the timeout. -/
theorem slots24_windows_overlap :
    ∃ txs, getTransactions wData "ca" "pa" "sa" "pkh" wSnap = Except.ok txs ∧
      (txs.getD 2 default).nonce = (txs.getD 4 default).nonce ∧
      (txs.getD 2 default).validUntil ≠ wData.timeout ∧
      inWindow (txs.getD 2 default) 51 ∧ inWindow (txs.getD 4 default) 51 := by
  refine ⟨_, rfl, ?_, ?_, ?_⟩ <;> decide

/-- C2 amended.  Slots 1 and 3 share nonce `n+1` and have disjoint windows
meeting at the timeout (slot 1 ends at `timeout`, slot 3 starts at
`timeout+1`).  Slots 2 and 4 share nonce `n+2` and slot 4 starts at
`timeout+1`, but slot 2's window is `[0, MAX_TIMESTAMP]`, so the two windows
are not disjoint: whenever `timeout+1 ≤ MAX_TIMESTAMP` they overlap (at
`timeout+1`). -/
theorem nonce_window_invariant (d : SwapData) (ca pa sa pkh : String)
    (snap : Snapshot) (txs : List Tx)
    (h : getTransactions d ca pa sa pkh snap = Except.ok txs) :
    (txs.getD 1 default).nonce = snap.account.nonce + 1 ∧
    (txs.getD 3 default).nonce = snap.account.nonce + 1 ∧
    (txs.getD 2 default).nonce = snap.account.nonce + 2 ∧
    (txs.getD 4 default).nonce = snap.account.nonce + 2 ∧
    (txs.getD 1 default).validFrom = 0 ∧
    (txs.getD 1 default).validUntil = d.timeout ∧
    (txs.getD 3 default).validFrom = d.timeout + 1 ∧
    (txs.getD 3 default).validUntil = MAX_TIMESTAMP ∧
    (∀ t, ¬(inWindow (txs.getD 1 default) t ∧ inWindow (txs.getD 3 default) t)) ∧
    (txs.getD 2 default).validFrom = 0 ∧
    (txs.getD 2 default).validUntil = MAX_TIMESTAMP ∧
    (txs.getD 4 default).validFrom = d.timeout + 1 ∧
    (txs.getD 4 default).validUntil = MAX_TIMESTAMP ∧
    (d.timeout + 1 ≤ MAX_TIMESTAMP →
      ∃ t, inWindow (txs.getD 2 default) t ∧ inWindow (txs.getD 4 default) t) := by
  unfold getTransactions at h
  cases hid : snap.account.id with
  | none => rw [hid] at h; exact absurd h (by simp)
  | some accId =>
    rw [hid] at h
    simp only [Except.ok.injEq] at h
    subst h
    cases hw : d.withdrawType <;>
      · simp only [hw, List.getD]
        refine ⟨rfl, rfl, rfl, rfl, rfl, rfl, rfl, rfl, ?_, rfl, rfl, rfl, rfl, ?_⟩
        · intro t ⟨⟨_, h1⟩, h2, _⟩
          exact absurd (Nat.lt_of_succ_le h2) (Nat.not_lt.mpr h1)
        · intro hle
          exact ⟨d.timeout + 1, ⟨Nat.zero_le _, hle⟩, Nat.le_refl _, hle⟩

/-- Witness for the amended C2 at the concrete inputs (the hypothesis is the
concrete `getTransactions` run, discharged by `rfl`). -/
theorem nonce_window_invariant_witness :
    ∃ txs, getTransactions wData "ca" "pa" "sa" "pkh" wSnap = Except.ok txs ∧
      (txs.getD 1 default).nonce = 10 ∧ (txs.getD 3 default).nonce = 10 := by
  refine ⟨_, rfl, ?_, ?_⟩
  · exact (nonce_window_invariant wData "ca" "pa" "sa" "pkh" wSnap _ rfl).1
  · exact (nonce_window_invariant wData "ca" "pa" "sa" "pkh" wSnap _ rfl).2.1

/-! ## C3: batch agreement between the two builder call sites -/

/-- C3.  If the provider's `signSwap` and the client's `prepareSwap` run
against the same swap terms, the same pair of party addresses, the same
aggregated-key hash, the same escrow descriptor and the same ledger
snapshot, and both succeed, then the two independently built transaction
batches are identical in every field. -/
theorem batch_agreement (opsP opsC : CryptoOps) (pp : ProviderParty)
    (pc : ClientParty) (d : SwapData) (pkh : String) (c2 : Create2Info)
    (snap : Snapshot) (led : PrepareLedger)
    (peerPre peerCom provPre : List Bytes) (cpk : String)
    (hpd : pp.swapData = some d) (hpkh : pp.pubKeyHash = some pkh)
    (hc2 : pp.create2Info = some c2) (hca : pp.clientAddress = pc.address)
    (hcpkh : opsC.pkHash = pkh)
    (hcder : clientEscrowDerivation opsC.derive pkh d.create2 = c2)
    (hsnap : led.snap = snap)
    (pp' : ProviderParty) (com shs : List Bytes)
    (pc' : ClientParty) (cpre ccom : List Bytes)
    (hP : providerSignSwap opsP pp peerPre peerCom snap =
      Except.ok (pp', com, shs))
    (hC : clientPrepareSwap opsC pc d cpk pp.address provPre led =
      Except.ok (pc', cpre, ccom)) :
    pp'.transactions = pc'.transactions := by
  by_cases hps : pp.state = SwapState.prepared
  case neg => simp [providerSignSwap, hps] at hP
  by_cases hcs : pc.state = ClientState.empty
  case neg => simp [clientPrepareSwap, hcs] at hC
  cases hgt : getTransactions d pc.address pp.address c2.address pkh snap with
  | error e =>
    simp [providerSignSwap, hps, hpd, hpkh, hc2, hca, hgt] at hP
  | ok txs =>
    simp [providerSignSwap, hps, hpd, hpkh, hc2, hca, hgt] at hP
    have hppt : pp'.transactions = txs := by
      obtain ⟨hP1, -⟩ := hP
      rw [← hP1]
    have hct : ∀ h : clientPrepareSwap opsC pc d cpk pp.address provPre led =
        Except.ok (pc', cpre, ccom), pc'.transactions = txs := by
      intro h2
      cases hpre : led.preAccount.id with
      | some aid =>
        simp [clientPrepareSwap, hcs, hcpkh, hcder, hpre, hsnap, hgt] at h2
        obtain ⟨hC1, -⟩ := h2
        rw [← hC1]
      | none =>
        cases htr : led.transferResult with
        | error e =>
          simp [clientPrepareSwap, hcs, hcpkh, hcder, hpre, htr, hsnap, hgt] at h2
        | ok u =>
          cases u
          simp [clientPrepareSwap, hcs, hcpkh, hcder, hpre, htr, hsnap, hgt] at h2
          obtain ⟨hC1, -⟩ := h2
          rw [← hC1]
    rw [hppt, hct hC]

/-- Witness for C3: a concrete provider and client, each with the matching
fields, both succeeding on the concrete snapshot; all hypotheses discharged
by `rfl`/`decide`-style evaluation. -/
theorem batch_agreement_witness :
    ∃ ppt pct, (providerSignSwap wOps wProviderPrepared [] [] wSnap).map
        (fun r => r.1.transactions) = Except.ok ppt ∧
      (clientPrepareSwap wOps wClientEmpty wData "cpk" "prov" [] wLed).map
        (fun r => r.1.transactions) = Except.ok pct ∧ ppt = pct := by
  refine ⟨_, _, rfl, rfl, ?_⟩
  have h := batch_agreement wOps wOps wProviderPrepared wClientEmpty wData
    "pkh" { salt := "s2", address := "esc2" } wSnap wLed [] [] [] "cpk"
    rfl rfl rfl rfl rfl rfl rfl _ _ _ _ _ _
    (by rfl) (by rfl)
  exact h

/-! ## C4: address agreement -/

/-- C4.  The escrow-address derivation performed by `SwapProvider.prepareSwap`
and the one performed by `SwapClient.prepareSwap` are the same pure function
of the aggregated-key hash and the CREATE2 data: for every derivation
primitive and every input, both parties obtain the identical salt/address
descriptor. -/
theorem address_agreement
    (getCREATE2AddressAndSalt : String → EthAuthData → Create2Info)
    (pubKeyHash : String) (create2 : Create2Data) :
    providerEscrowDerivation getCREATE2AddressAndSalt pubKeyHash create2 =
      clientEscrowDerivation getCREATE2AddressAndSalt pubKeyHash create2 ∧
    (providerEscrowDerivation getCREATE2AddressAndSalt pubKeyHash create2).salt =
      (clientEscrowDerivation getCREATE2AddressAndSalt pubKeyHash create2).salt ∧
    (providerEscrowDerivation getCREATE2AddressAndSalt pubKeyHash create2).address =
      (clientEscrowDerivation getCREATE2AddressAndSalt pubKeyHash create2).address :=
  ⟨rfl, rfl, rfl⟩

/-! ## C5: the funds-present check in checkSwap -/

/-- C5 counterexample.  The claim says `checkSwap` fails iff the escrow
balance is strictly below the sell amount plus the fees the counterparty
must fund.  Concretely: sell amount 100, slot-0 fee 5, slot-2 fee 3, escrow
balance 100 < 100 + 5 + 3, yet `checkSwap` succeeds and moves to `checked`
— the code compares the balance against the sell amount alone. -/
theorem checkSwap_ignores_fees :
    (wEscrowAccount.balances wData.sell.token <
      wData.sell.amount + (wProviderSigned.transactions.getD 0 default).fee
        + (wProviderSigned.transactions.getD 2 default).fee) ∧
    ∃ p', providerCheckSwap wOps wProviderSigned [[9], [9], [9], [9], [9]]
        wEscrowAccount = Except.ok p' ∧ p'.state = SwapState.checked := by
  refine ⟨by decide, ?_⟩
  refine ⟨_, rfl, ?_⟩
  decide

/-- C5 amended.  In state `signed`, once every combined signature verifies,
`checkSwap` reads the escrow balance in the sold token and fails with
"Client did not deposit enough funds" iff that balance is strictly below the
sell amount (the fees the counterparty must fund are not part of the
threshold); otherwise it succeeds and the state becomes `checked`. -/
theorem checkSwap_funds_check (ops : CryptoOps) (p : ProviderParty)
    (signatureShares : List Bytes) (swapAccount : AccountState) (d : SwapData)
    (l : List Tx)
    (hst : p.state = SwapState.signed) (hd : p.swapData = some d)
    (hloop : providerCombineLoop ops p.shares signatureShares p.transactions 0 =
      Except.ok l) :
    ((swapAccount.balances d.sell.token < d.sell.amount →
      providerCheckSwap ops p signatureShares swapAccount =
        Except.error ("Client did not deposit enough funds",
          { p with transactions := l })) ∧
     (d.sell.amount ≤ swapAccount.balances d.sell.token →
      providerCheckSwap ops p signatureShares swapAccount =
        Except.ok { p with transactions := l, state := SwapState.checked })) := by
  constructor
  · intro hlt
    simp [providerCheckSwap, hst, hd, hloop, hlt]
  · intro hge
    simp [providerCheckSwap, hst, hd, hloop, Nat.not_lt.mpr hge]

/-- Witness for the amended C5: the concrete signed provider, a depositing
balance of 99 < 100 on one side and 100 ≥ 100 on the other; all hypotheses
discharged by `rfl`/`decide`. -/
theorem checkSwap_funds_check_witness :
    ∃ p', providerCheckSwap wOps wProviderSigned [[9], [9], [9], [9], [9]]
      { wEscrowAccount with balances := fun t => if t = "ETH" then 99 else 0 } =
      Except.error ("Client did not deposit enough funds", p') :=
  ⟨_, (checkSwap_funds_check wOps wProviderSigned [[9], [9], [9], [9], [9]]
      { wEscrowAccount with balances := fun t => if t = "ETH" then 99 else 0 }
      wData _ rfl rfl rfl).1 (by decide)⟩

/-! ## C6: state-machine discipline -/

/-- C6 counterexample.  The claim says every failing operation leaves the
party's state and per-attempt data unchanged.  Concretely: a fresh client
runs `prepareSwap` against a ledger where the escrow account never obtains
an id; the inner `getTransactions` call throws, yet the client's state is
already `prepared` (it was assigned before the ledger work) and its
per-attempt fields are already populated, so the failing call did mutate the
party. -/
theorem clientPrepareSwap_mutates_on_failure :
    ∃ e p', clientPrepareSwap wOps wClientEmpty wData "cpk" "prov" [] wLedNoId =
        Except.error (e, p') ∧
      p'.state = ClientState.prepared ∧ p'.swapData = some wData ∧
      p' ≠ wClientEmpty := by
  refine ⟨_, _, rfl, ?_, ?_, ?_⟩ <;> decide

/-- C6 amended.  Every operation succeeds only from its exact predecessor
state and then ends in its designated successor state; a call in any other
state throws with the party completely unchanged; and every *post-guard*
failure leaves the state field unchanged for all operations except
`SwapClient.prepareSwap`, which assigns `prepared` (and the per-attempt
fields) before its fallible ledger work, so its ledger failures surface
with the state already advanced (and `checkSwap` verification/funds
failures surface with the transactions already mutated). -/
theorem state_machine_discipline :
    -- client prepareSwap
    (∀ ops p data pk pa pre led, p.state ≠ ClientState.empty →
      clientPrepareSwap ops p data pk pa pre led =
        Except.error ("SwapClient is in the middle of a swap - cant start a new one", p)) ∧
    (∀ ops p data pk pa pre led r,
      clientPrepareSwap ops p data pk pa pre led = Except.ok r →
      p.state = ClientState.empty ∧ r.1.state = ClientState.prepared) ∧
    (∀ ops p data pk pa pre led e p',
      clientPrepareSwap ops p data pk pa pre led = Except.error (e, p') →
      p'.state = p.state ∨ p'.state = ClientState.prepared) ∧
    -- client signSwap
    (∀ ops p com shs, p.state ≠ ClientState.prepared →
      clientSignSwap ops p com shs =
        Except.error ("SwapClient is not prepared for the swap", p)) ∧
    (∀ ops p com shs r, clientSignSwap ops p com shs = Except.ok r →
      p.state = ClientState.prepared ∧ r.1.state = ClientState.signed) ∧
    (∀ ops p com shs e p', clientSignSwap ops p com shs = Except.error (e, p') →
      p'.state = p.state) ∧
    -- client depositFunds
    (∀ p dt ledger, p.state ≠ ClientState.signed →
      clientDepositFunds p dt ledger =
        Except.error ("SwapClient has not yet signed the transactions - cant deposit funds", p)) ∧
    (∀ p dt ledger r, clientDepositFunds p dt ledger = Except.ok r →
      p.state = ClientState.signed ∧ r.1.state = ClientState.deposited) ∧
    (∀ p dt ledger e p', clientDepositFunds p dt ledger = Except.error (e, p') →
      p'.state = p.state) ∧
    -- provider prepareSwap
    (∀ ops p data cpk ca, p.state ≠ SwapState.empty →
      providerPrepareSwap ops p data cpk ca =
        Except.error ("In the middle of a swap - cant start a new one", p)) ∧
    (∀ ops p data cpk ca r, providerPrepareSwap ops p data cpk ca = Except.ok r →
      p.state = SwapState.empty ∧ r.1.state = SwapState.prepared) ∧
    (∀ ops p data cpk ca e p',
      providerPrepareSwap ops p data cpk ca = Except.error (e, p') → p' = p) ∧
    -- provider signSwap
    (∀ ops p pre com snap, p.state ≠ SwapState.prepared →
      providerSignSwap ops p pre com snap =
        Except.error ("Not prepared for the swap", p)) ∧
    (∀ ops p pre com snap r, providerSignSwap ops p pre com snap = Except.ok r →
      p.state = SwapState.prepared ∧ r.1.state = SwapState.signed) ∧
    (∀ ops p pre com snap e p',
      providerSignSwap ops p pre com snap = Except.error (e, p') →
      p'.state = p.state) ∧
    -- provider checkSwap
    (∀ ops p shs acct, p.state ≠ SwapState.signed →
      providerCheckSwap ops p shs acct =
        Except.error ("Not yet signed the swap transactions", p)) ∧
    (∀ ops p shs acct p', providerCheckSwap ops p shs acct = Except.ok p' →
      p.state = SwapState.signed ∧ p'.state = SwapState.checked) ∧
    (∀ ops p shs acct e p', providerCheckSwap ops p shs acct = Except.error (e, p') →
      p'.state = p.state) ∧
    -- provider finalizeSwap
    (∀ p ledger, p.state ≠ SwapState.checked →
      providerFinalizeSwap p ledger =
        Except.error ("Not yet checked the signatures - not safe to deposit funds", p)) ∧
    (∀ p ledger r, providerFinalizeSwap p ledger = Except.ok r →
      p.state = SwapState.checked ∧ r.1.state = SwapState.finalized) ∧
    (∀ p ledger e p', providerFinalizeSwap p ledger = Except.error (e, p') →
      p'.state = p.state) := by
  refine ⟨?_, ?_, ?_, ?_, ?_, ?_, ?_, ?_, ?_, ?_, ?_, ?_, ?_, ?_, ?_, ?_, ?_, ?_, ?_, ?_, ?_⟩
  -- client prepareSwap, wrong state
  · intro ops p data pk pa pre led h
    simp [clientPrepareSwap, h]
  -- client prepareSwap, success
  · intro ops p data pk pa pre led r h
    by_cases hst : p.state = ClientState.empty
    · refine ⟨hst, ?_⟩
      simp only [clientPrepareSwap, hst] at h
      rw [if_neg (by simp)] at h
      split at h
      · exact absurd h (by simp)
      · split at h
        · exact absurd h (by simp)
        · simp only [Except.ok.injEq] at h
          rw [← h]
    · simp [clientPrepareSwap, hst] at h
  -- client prepareSwap, error states
  · intro ops p data pk pa pre led e p' h
    by_cases hst : p.state = ClientState.empty
    · right
      simp only [clientPrepareSwap, hst] at h
      rw [if_neg (by simp)] at h
      split at h
      · rename_i heq
        split at heq
        · exact absurd heq (by simp)
        · split at heq
          · exact absurd heq (by simp)
          · simp only [Except.error.injEq] at heq
            simp only [Except.error.injEq, heq.symm, Prod.mk.injEq] at h
            rw [← h.2]
      · split at h
        · simp only [Except.error.injEq, Prod.mk.injEq] at h
          rw [← h.2]
        · exact absurd h (by simp)
    · left
      simp [clientPrepareSwap, hst] at h
      rw [← h.2]
  -- client signSwap, wrong state
  · intro ops p com shs h
    simp [clientSignSwap, h]
  -- client signSwap, success
  · intro ops p com shs r h
    by_cases hst : p.state = ClientState.prepared
    · refine ⟨hst, ?_⟩
      simp only [clientSignSwap, hst] at h
      rw [if_neg (by simp)] at h
      split at h
      · exact absurd h (by simp)
      · simp only [Except.ok.injEq] at h
        rw [← h]
    · simp [clientSignSwap, hst] at h
  -- client signSwap, error state
  · intro ops p com shs e p' h
    by_cases hst : p.state = ClientState.prepared
    · simp only [clientSignSwap, hst] at h
      rw [if_neg (by simp)] at h
      split at h
      · simp only [Except.error.injEq, Prod.mk.injEq] at h
        rw [← h.2, hst]
      · exact absurd h (by simp)
    · simp [clientSignSwap, hst] at h
      rw [← h.2]
  -- client depositFunds, wrong state
  · intro p dt ledger h
    simp [clientDepositFunds, h]
  -- client depositFunds, success
  · intro p dt ledger r h
    by_cases hst : p.state = ClientState.signed
    · refine ⟨hst, ?_⟩
      simp only [clientDepositFunds, hst] at h
      rw [if_neg (by simp)] at h
      split at h
      · exact absurd h (by simp)
      · split at h
        · exact absurd h (by simp)
        · simp only [Except.ok.injEq] at h
          rw [← h]
    · simp [clientDepositFunds, hst] at h
  -- client depositFunds, error state
  · intro p dt ledger e p' h
    by_cases hst : p.state = ClientState.signed
    · simp only [clientDepositFunds, hst] at h
      rw [if_neg (by simp)] at h
      split at h
      · simp only [Except.error.injEq, Prod.mk.injEq] at h
        rw [← h.2]
      · split at h
        · simp only [Except.error.injEq, Prod.mk.injEq] at h
          rw [← h.2]
        · exact absurd h (by simp)
    · simp [clientDepositFunds, hst] at h
      rw [← h.2]
  -- provider prepareSwap, wrong state
  · intro ops p data cpk ca h
    simp [providerPrepareSwap, h]
  -- provider prepareSwap, success
  · intro ops p data cpk ca r h
    by_cases hst : p.state = SwapState.empty
    · refine ⟨hst, ?_⟩
      simp only [providerPrepareSwap, hst] at h
      rw [if_neg (by simp)] at h
      simp only [Except.ok.injEq] at h
      rw [← h]
    · simp [providerPrepareSwap, hst] at h
  -- provider prepareSwap, error
  · intro ops p data cpk ca e p' h
    by_cases hst : p.state = SwapState.empty
    · simp only [providerPrepareSwap, hst] at h
      rw [if_neg (by simp)] at h
      exact absurd h (by simp)
    · simp [providerPrepareSwap, hst] at h
      rw [← h.2]
  -- provider signSwap, wrong state
  · intro ops p pre com snap h
    simp [providerSignSwap, h]
  -- provider signSwap, success
  · intro ops p pre com snap r h
    by_cases hst : p.state = SwapState.prepared
    · refine ⟨hst, ?_⟩
      simp only [providerSignSwap, hst] at h
      rw [if_neg (by simp)] at h
      split at h
      · split at h
        · exact absurd h (by simp)
        · simp only [Except.ok.injEq] at h
          rw [← h]
      · exact absurd h (by simp)
    · simp [providerSignSwap, hst] at h
  -- provider signSwap, error state
  · intro ops p pre com snap e p' h
    by_cases hst : p.state = SwapState.prepared
    · simp only [providerSignSwap, hst] at h
      rw [if_neg (by simp)] at h
      split at h
      · split at h
        · simp only [Except.error.injEq, Prod.mk.injEq] at h
          rw [← h.2]
          simp [hst]
        · exact absurd h (by simp)
      · simp only [Except.error.injEq, Prod.mk.injEq] at h
        rw [← h.2]
        simp [hst]
    · simp [providerSignSwap, hst] at h
      rw [← h.2]
  -- provider checkSwap, wrong state
  · intro ops p shs acct h
    simp [providerCheckSwap, h]
  -- provider checkSwap, success
  · intro ops p shs acct p' h
    by_cases hst : p.state = SwapState.signed
    · refine ⟨hst, ?_⟩
      simp only [providerCheckSwap, hst] at h
      rw [if_neg (by simp)] at h
      split at h
      · exact absurd h (by simp)
      · split at h
        · exact absurd h (by simp)
        · split at h
          · exact absurd h (by simp)
          · simp only [Except.ok.injEq] at h
            rw [← h]
    · simp [providerCheckSwap, hst] at h
  -- provider checkSwap, error state
  · intro ops p shs acct e p' h
    by_cases hst : p.state = SwapState.signed
    · simp only [providerCheckSwap, hst] at h
      rw [if_neg (by simp)] at h
      split at h
      · simp only [Except.error.injEq, Prod.mk.injEq] at h
        rw [← h.2]
        simp [hst]
      · split at h
        · simp only [Except.error.injEq, Prod.mk.injEq] at h
          rw [← h.2]
          simp [hst]
        · split at h
          · simp only [Except.error.injEq, Prod.mk.injEq] at h
            rw [← h.2]
            simp [hst]
          · exact absurd h (by simp)
    · simp [providerCheckSwap, hst] at h
      rw [← h.2]
  -- provider finalizeSwap, wrong state
  · intro p ledger h
    simp [providerFinalizeSwap, h]
  -- provider finalizeSwap, success
  · intro p ledger r h
    by_cases hst : p.state = SwapState.checked
    · refine ⟨hst, ?_⟩
      simp only [providerFinalizeSwap, hst] at h
      rw [if_neg (by simp)] at h
      split at h
      · exact absurd h (by simp)
      · simp only [Except.ok.injEq] at h
        rw [← h]
    · simp [providerFinalizeSwap, hst] at h
  -- provider finalizeSwap, error
  · intro p ledger e p' h
    by_cases hst : p.state = SwapState.checked
    · simp only [providerFinalizeSwap, hst] at h
      rw [if_neg (by simp)] at h
      split at h
      · simp only [Except.error.injEq, Prod.mk.injEq] at h
        rw [← h.2]
      · exact absurd h (by simp)
    · simp [providerFinalizeSwap, hst] at h
      rw [← h.2]

/-- Witness for the amended C6: the wrong-state clause of
`providerCheckSwap` applied to the concrete prepared provider (hypothesis
`prepared ≠ signed` discharged by `decide`). -/
theorem state_machine_discipline_witness :
    providerCheckSwap wOps wProviderPrepared [] wEscrowAccount =
      Except.error ("Not yet signed the swap transactions", wProviderPrepared) :=
  state_machine_discipline.2.2.2.2.2.2.2.2.2.2.2.2.2.2.2.1
    wOps wProviderPrepared [] wEscrowAccount (by decide)

/-! ## C7: signature verification aborts the call -/

/-- Helper: if the provider's combine/verify loop returns successfully, then
every slot's combined signature verified. -/
theorem providerCombineLoop_ok_verify (ops : CryptoOps) (mine theirs : List Bytes) :
    ∀ (txs : List Tx) (i : Nat) (l : List Tx),
      providerCombineLoop ops mine theirs txs i = Except.ok l →
      ∀ j, j < txs.length →
        ops.verify (ops.serialize (txs.getD j default))
          (ops.combine (mine.getD (i + j) []) (theirs.getD (i + j) []) (i + j)) = true
  | [], _, _, _, j, hj => absurd hj (by simp)
  | tx :: rest, i, l, h, 0, _ => by
    unfold providerCombineLoop at h
    by_cases hv : ops.verify (ops.serialize tx)
        (ops.combine (mine.getD i []) (theirs.getD i []) i) = true
    · simpa using hv
    · rw [if_neg hv] at h
      exact absurd h (by simp)
  | tx :: rest, i, l, h, j + 1, hj => by
    unfold providerCombineLoop at h
    by_cases hv : ops.verify (ops.serialize tx)
        (ops.combine (mine.getD i []) (theirs.getD i []) i) = true
    · rw [if_pos hv] at h
      cases hrec : providerCombineLoop ops mine theirs rest (i + 1) with
      | error l2 => rw [hrec] at h; exact absurd h (by simp)
      | ok l2 =>
        have := providerCombineLoop_ok_verify ops mine theirs rest (i + 1) l2 hrec j
          (by simpa using Nat.lt_of_succ_lt_succ hj)
        simpa [Nat.add_assoc, Nat.add_comm 1 j] using this
    · rw [if_neg hv] at h
      exact absurd h (by simp)

/-- Helper: if the client's sign/combine/verify loop returns successfully,
then every slot's combined signature verified. -/
theorem clientSignLoop_ok_verify (ops : CryptoOps) (pk : String) (theirs : List Bytes) :
    ∀ (txs : List Tx) (i : Nat) (r : List Tx × List Bytes),
      clientSignLoop ops pk theirs txs i = Except.ok r →
      ∀ j, j < txs.length →
        ops.verify (ops.serialize (txs.getD j default))
          (ops.combine (theirs.getD (i + j) [])
            (ops.sign pk (ops.serialize (txs.getD j default)) (i + j)) (i + j)) = true
  | [], _, _, _, j, hj => absurd hj (by simp)
  | tx :: rest, i, r, h, 0, _ => by
    unfold clientSignLoop at h
    by_cases hv : ops.verify (ops.serialize tx)
        (ops.combine (theirs.getD i []) (ops.sign pk (ops.serialize tx) i) i) = true
    · simpa using hv
    · rw [if_neg hv] at h
      exact absurd h (by simp)
  | tx :: rest, i, r, h, j + 1, hj => by
    unfold clientSignLoop at h
    by_cases hv : ops.verify (ops.serialize tx)
        (ops.combine (theirs.getD i []) (ops.sign pk (ops.serialize tx) i) i) = true
    · rw [if_pos hv] at h
      cases hrec : clientSignLoop ops pk theirs rest (i + 1) with
      | error l2 => rw [hrec] at h; exact absurd h (by simp)
      | ok r2 =>
        have := clientSignLoop_ok_verify ops pk theirs rest (i + 1) r2 hrec j
          (by simpa using Nat.lt_of_succ_lt_succ hj)
        simpa [Nat.add_assoc, Nat.add_comm 1 j] using this
    · rw [if_neg hv] at h
      exact absurd h (by simp)

/-- C7.  If for some slot `j` the signature combined from the two parties'
shares fails to verify against the serialized slot-`j` transaction, then the
checking party's call — `checkSwap` for the provider, `signSwap` for the
client — throws its invalid-signature-shares error and does not advance the
state.  In particular a share taken from a different slot or message, which
makes `verify` return false for its slot, aborts the call. -/
theorem verification_failure_aborts :
    (∀ (ops : CryptoOps) (p : ProviderParty) (shs : List Bytes)
       (acct : AccountState) (j : Nat),
      p.state = SwapState.signed →
      j < p.transactions.length →
      ops.verify (ops.serialize (p.transactions.getD j default))
        (ops.combine (p.shares.getD j []) (shs.getD j []) j) = false →
      ∃ p', providerCheckSwap ops p shs acct =
          Except.error ("Provided signature shares are invalid", p') ∧
        p'.state = SwapState.signed) ∧
    (∀ (ops : CryptoOps) (p : ClientParty) (com shs : List Bytes) (j : Nat),
      p.state = ClientState.prepared →
      j < p.transactions.length →
      ops.verify (ops.serialize (p.transactions.getD j default))
        (ops.combine (shs.getD j [])
          (ops.sign p.privateKey (ops.serialize (p.transactions.getD j default)) j) j)
        = false →
      ∃ p', clientSignSwap ops p com shs =
          Except.error ("Provided signature shares were invalid", p') ∧
        p'.state = ClientState.prepared) := by
  constructor
  · intro ops p shs acct j hst hj hv
    cases hloop : providerCombineLoop ops p.shares shs p.transactions 0 with
    | ok l =>
      have := providerCombineLoop_ok_verify ops p.shares shs p.transactions 0 l hloop j hj
      rw [Nat.zero_add] at this
      rw [this] at hv
      exact absurd hv (by simp)
    | error l =>
      refine ⟨{ p with transactions := l }, ?_, hst⟩
      simp [providerCheckSwap, hst, hloop]
  · intro ops p com shs j hst hj hv
    cases hloop : clientSignLoop ops p.privateKey shs p.transactions 0 with
    | ok r =>
      have := clientSignLoop_ok_verify ops p.privateKey shs p.transactions 0 r hloop j hj
      rw [Nat.zero_add] at this
      rw [this] at hv
      exact absurd hv (by simp)
    | error l =>
      refine ⟨{ p with transactions := l }, ?_, hst⟩
      simp [clientSignSwap, hst, hloop]

/-- Witness for C7: the always-failing verifier on the concrete signed
provider (slot 0; hypotheses discharged by `decide`/`rfl`). -/
theorem verification_failure_aborts_witness :
    ∃ p', providerCheckSwap wOpsBad wProviderSigned [[9], [9], [9], [9], [9]]
        wEscrowAccount =
      Except.error ("Provided signature shares are invalid", p') ∧
      p'.state = SwapState.signed :=
  verification_failure_aborts.1 wOpsBad wProviderSigned
    [[9], [9], [9], [9], [9]] wEscrowAccount 0 rfl (by decide) rfl

/-! ## C8: reset -/

/-- C8 counterexample.  The claim says `reset()` discards all per-attempt
state (SwapData, signer session, escrow descriptor, transaction batch).
Concretely: resetting the signed client sets the state to `empty` but the
per-attempt fields all survive — the SwapData, the round-2 commitments of
the signer session, the escrow descriptor and the 5-transaction batch are
still stored in the object. -/
theorem reset_retains_attempt_data :
    (ClientParty.reset wClientSigned).state = ClientState.empty ∧
    (ClientParty.reset wClientSigned).swapData = some wData ∧
    (ClientParty.reset wClientSigned).commitments ≠ none ∧
    (ClientParty.reset wClientSigned).create2Info =
      some { salt := "s2", address := "esc2" } ∧
    (ClientParty.reset wClientSigned).transactions.length = 5 := by
  refine ⟨rfl, ?_, ?_, ?_, ?_⟩ <;> decide

/-- C8 amended.  `reset()` succeeds from every state and sets the state to
`empty`, keeping the long-lived identity; the per-attempt fields (SwapData,
signer commitments, escrow descriptor, transaction batch) are *retained* in
the object, not discarded, but the state-guarded accessors `swapAddress` and
`swapSalt` throw in the `empty` state, so the retained descriptor is no
longer observable through them. -/
theorem reset_sets_state_empty (p : ClientParty) (q : ProviderParty) :
    (ClientParty.reset p).state = ClientState.empty ∧
    (ClientParty.reset p).privateKey = p.privateKey ∧
    (ClientParty.reset p).publicKey = p.publicKey ∧
    (ClientParty.reset p).address = p.address ∧
    (ClientParty.reset p).swapData = p.swapData ∧
    (ClientParty.reset p).commitments = p.commitments ∧
    (ClientParty.reset p).pubKeyHash = p.pubKeyHash ∧
    (ClientParty.reset p).create2Info = p.create2Info ∧
    (ClientParty.reset p).transactions = p.transactions ∧
    (ClientParty.reset p).swapAddress =
      Except.error "No active swaps present" ∧
    (ClientParty.reset p).swapSalt =
      Except.error "No active swaps present" ∧
    (ProviderParty.reset q).state = SwapState.empty ∧
    (ProviderParty.reset q).swapData = q.swapData ∧
    (ProviderParty.reset q).transactions = q.transactions ∧
    (ProviderParty.reset q).shares = q.shares ∧
    (ProviderParty.reset q).create2Info = q.create2Info := by
  refine ⟨rfl, rfl, rfl, rfl, rfl, rfl, rfl, rfl, rfl, ?_, ?_, rfl, rfl, rfl, rfl, rfl⟩
  · simp [ClientParty.swapAddress, ClientParty.reset]
  · simp [ClientParty.swapSalt, ClientParty.reset]

/-! ## C9: the deposit amount -/

/-- C9.  In state `signed`, `depositFunds` hands the ledger (either the L2
transfer or the cross-layer deposit, per `depositType`) exactly the sell
amount plus the slot-0 (ChangePubKey) fee plus the slot-2 (provider
proceeds leg) fee, in the sell token; when the ledger call succeeds the
state becomes `deposited`, and when it fails the party is unchanged. -/
theorem depositFunds_amount (p : ClientParty) (d : SwapData)
    (dt : WithdrawType) (ledger : WithdrawType → Nat → String → Except String String)
    (hst : p.state = ClientState.signed) (hd : p.swapData = some d) :
    (∀ e, ledger dt (d.sell.amount + (p.transactions.getD 0 default).fee
        + (p.transactions.getD 2 default).fee) d.sell.token = Except.error e →
      clientDepositFunds p dt ledger = Except.error (e, p)) ∧
    (∀ hash, ledger dt (d.sell.amount + (p.transactions.getD 0 default).fee
        + (p.transactions.getD 2 default).fee) d.sell.token = Except.ok hash →
      clientDepositFunds p dt ledger =
        Except.ok ({ p with state := ClientState.deposited }, hash)) := by
  constructor
  · intro e he
    simp only [List.getD_eq_getElem?_getD] at he
    simp [clientDepositFunds, hst, hd, he]
  · intro hash hh
    simp only [List.getD_eq_getElem?_getD] at hh
    simp [clientDepositFunds, hst, hd, hh]

/-- Witness for C9: the concrete signed client (slot-0 fee 5, slot-2 fee 3,
sell amount 100, so the deposit is 108 ETH-units) against a ledger that
records the requested amount and token in the returned hash; hypotheses
discharged by `rfl`. -/
theorem depositFunds_amount_witness :
    clientDepositFunds wClientSigned WithdrawType.L2
      (fun _ amt tok => Except.ok (toString amt ++ tok)) =
      Except.ok ({ wClientSigned with state := ClientState.deposited },
        "108ETH") :=
  (depositFunds_amount wClientSigned wData WithdrawType.L2
    (fun _ amt tok => Except.ok (toString amt ++ tok)) rfl rfl).2 "108ETH" rfl

/-! ## C10: transpose -/

/-- Helper: `getD` commutes with `map` at in-range indices. -/
theorem tr_getD_map {α β : Type} (f : α → β) :
    ∀ (l : List α) (j : Nat), j < l.length → ∀ (d : α) (e : β),
      (l.map f).getD j e = f (l.getD j d)
  | _ :: _, 0, _, _, _ => rfl
  | _ :: l, j + 1, h, d, e => tr_getD_map f l j (Nat.lt_of_succ_lt_succ h) d e

/-- Helper: `getD` on `List.range` at an in-range index is the index. -/
theorem tr_getD_range (n i : Nat) (h : i < n) (d : Nat) :
    (List.range n).getD i d = i := by
  rw [List.getD_eq_getElem?_getD, List.getElem?_range h]
  rfl

/-- Helper: mapping `getD` over the index range of a list rebuilds it. -/
theorem tr_map_getD_range {α : Type} [Inhabited α] :
    ∀ r : List α, (List.range r.length).map (fun j => r.getD j default) = r := by
  intro r
  induction r with
  | nil => rfl
  | cons a r ih =>
    rw [List.length_cons, List.range_succ_eq_map, List.map_cons, List.map_map]
    exact congrArg (a :: ·) ih

/-- Helper: `getD` of a `map` over `List.range` at an in-range index. -/
theorem tr_getD_map_range {β : Type} (f : Nat → β) (n i : Nat) (h : i < n)
    (e : β) : ((List.range n).map f).getD i e = f i := by
  rw [tr_getD_map f (List.range n) i (by simpa using h) 0 e, tr_getD_range n i h]

/-- Helper: rebuild a list of known length from its entries. -/
theorem tr_map_getD_of_length {α : Type} [Inhabited α] (r : List α) (c : Nat)
    (h : r.length = c) :
    (List.range c).map (fun j => r.getD j default) = r := by
  subst h
  exact tr_map_getD_range r

/-- C10 counterexample.  The claim requires only that the matrix be
rectangular with at least one row.  The matrix `[[]]` (one empty row)
satisfies that, but `transpose [[]] = []` and a second `transpose`
application crashes on the empty array (`matrix[0]` is `undefined`), so
`transpose (transpose [[]])` does not return `[[]]`. -/
theorem transpose_involution_fails_on_empty_row :
    ([([] : List Nat)] ≠ [] ∧ ∀ r ∈ [([] : List Nat)], r.length = 0) ∧
    transpose [([] : List Nat)] = some [] ∧
    (transpose [([] : List Nat)]).bind transpose ≠ some [([] : List Nat)] := by
  refine ⟨⟨by decide, ?_⟩, rfl, by decide⟩
  intro r hr
  simp only [List.mem_singleton] at hr
  subst hr
  rfl

/-- C10 amended.  For a rectangular matrix `m` with at least one row, all of
whose rows have length `c`, `transpose m` succeeds and the result has entry
`[i][j]` equal to `m[j][i]` for all valid indices; when additionally the
rows are non-empty (`0 < c`), `transpose (transpose m) = m`.  (For `c = 0`
the transpose is the empty matrix and the second application crashes.) -/
theorem transpose_entries_involution {α : Type} [Inhabited α]
    (m : List (List α)) (c : Nat) (hm : m ≠ [])
    (hr : ∀ r ∈ m, r.length = c) :
    ∃ t, transpose m = some t ∧ t.length = c ∧
      (∀ i, i < c → (t.getD i []).length = m.length) ∧
      (∀ i j, i < c → j < m.length →
        (t.getD i []).getD j default = (m.getD j []).getD i default) ∧
      (0 < c → transpose t = some m) := by
  match m, hm with
  | r0 :: rest, _ =>
    have hc0 : r0.length = c := hr r0 (List.mem_cons_self r0 rest)
    refine ⟨_, rfl, ?_, ?_, ?_, ?_⟩
    · simp [hc0]
    · intro i hi
      rw [tr_getD_map_range _ _ i (hc0 ▸ hi) []]
      simp
    · intro i j hi hj
      rw [tr_getD_map_range _ _ i (hc0 ▸ hi) []]
      exact tr_getD_map (fun row => row.getD i default) (r0 :: rest) j hj [] default
    · intro hc
      have hne : 0 < r0.length := hc0 ▸ hc
      obtain ⟨i0, irest, hR⟩ : ∃ i0 irest, List.range r0.length = i0 :: irest := by
        cases hcase : List.range r0.length with
        | nil =>
          exfalso
          have hlr := List.length_range r0.length
          rw [hcase] at hlr
          simp at hlr
          omega
        | cons a l => exact ⟨a, l, rfl⟩
      rw [hR, List.map_cons]
      rw [show transpose ((r0 :: rest).map (fun row => row.getD i0 default) ::
            irest.map (fun index => (r0 :: rest).map (fun row => row.getD index default))) =
          some ((List.range ((r0 :: rest).map (fun row => row.getD i0 default)).length).map
            (fun index =>
              ((r0 :: rest).map (fun row => row.getD i0 default) ::
                irest.map (fun idx => (r0 :: rest).map (fun row => row.getD idx default))).map
                (fun row => row.getD index default)))
          from rfl]
      rw [← List.map_cons (fun index => (r0 :: rest).map (fun row => row.getD index default)) i0 irest,
          ← hR]
      congr 1
      have hlen : ((r0 :: rest).map (fun row => row.getD i0 default)).length =
          (r0 :: rest).length := by simp
      rw [hlen]
      have hinner : ∀ i, i < (r0 :: rest).length →
          ((List.range r0.length).map
              (fun index => (r0 :: rest).map (fun row => row.getD index default))).map
            (fun row => row.getD i default) = (r0 :: rest).getD i [] := by
        intro i hi
        rw [List.map_map]
        have hstep : ∀ j ∈ List.range r0.length,
            ((fun row => row.getD i default) ∘
              (fun index => (r0 :: rest).map (fun row => row.getD index default))) j =
            ((r0 :: rest).getD i []).getD j default := by
          intro j hj
          simp only [Function.comp]
          exact tr_getD_map (fun row => row.getD j default) (r0 :: rest) i hi [] default
        rw [List.map_congr_left hstep]
        have hglen : ((r0 :: rest).getD i []).length = r0.length := by
          have hmem : (r0 :: rest).getD i [] ∈ (r0 :: rest) := by
            rw [List.getD_eq_getElem?_getD, List.getElem?_eq_getElem hi]
            exact List.getElem_mem _
          rw [hc0]
          exact hr _ hmem
        exact tr_map_getD_of_length _ _ hglen
      have houter : ∀ i ∈ List.range (r0 :: rest).length,
          (fun i => ((List.range r0.length).map
              (fun index => (r0 :: rest).map (fun row => row.getD index default))).map
            (fun row => row.getD i default)) i =
          (fun i => (r0 :: rest).getD i []) i := by
        intro i hi
        exact hinner i (List.mem_range.mp hi)
      rw [List.map_congr_left houter]
      exact tr_map_getD_of_length _ _ rfl

/-- Witness for the amended C10 at the 2×2 matrix `[[1,2],[3,4]]`
(hypotheses discharged concretely). -/
theorem transpose_entries_involution_witness :
    ∃ t, transpose [[1, 2], [3, 4]] = some t ∧
      transpose t = some [[1, 2], [3, 4]] := by
  obtain ⟨t, h1, -, -, -, h5⟩ :=
    transpose_entries_involution (α := Nat) [[1, 2], [3, 4]] 2 (by decide)
      (by
        intro r hr
        simp only [List.mem_cons, List.not_mem_nil, or_false] at hr
        rcases hr with rfl | rfl <;> rfl)
  exact ⟨t, h1, h5 (by decide)⟩

end AtomicSwaps
